import Mathlib

/-!
Verification of the Africa risk-score analysis pipeline
(`africa_risk_score_analysis.py` and `africa_risk_choropleth.py`).

The Python code is shallowly embedded: floats become exact rationals
(reals where a square root occurs), `None`/`NaN` become `Option.none`,
the list of API records becomes a Lean list, and a pandas `DataFrame`
becomes a list of structures, one structure field per column.
-/

namespace RiskAnalysis

/-- Round half to even (banker's rounding) to the nearest integer, the
tie-breaking used by Python's built-in `round` and numpy's `round`. -/
def bankersRound {α : Type*} [LinearOrderedField α] [FloorRing α] (x : α) : ℤ :=
  if x - ⌊x⌋ < 1/2 then ⌊x⌋
  else if 1/2 < x - ⌊x⌋ then ⌊x⌋ + 1
  else if ⌊x⌋ % 2 = 0 then ⌊x⌋ else ⌊x⌋ + 1

/-- Python's `round(x, 2)` on an exact rational. -/
def pyRound2 (x : ℚ) : ℚ := (bankersRound (x * 100) : ℚ) / 100

/-- numpy's `Series.round(4)` over the reals. -/
noncomputable def npRound4 (x : ℝ) : ℝ := (bankersRound (x * 10000) : ℝ) / 10000

/-- The `NORTH_AFRICA_COUNTRIES` constant. -/
def NORTH_AFRICA_COUNTRIES : List String := ["Morocco", "Tunisia", "Algeria", "Libya", "Egypt"]

/-- The `INCLUDED_HAZARDS` constant. -/
def INCLUDED_HAZARDS : List String := ["Drought", "Flood", "Wildfire"]

/-- `categorize_go_platform`: the 5-point GO-platform classification.
A `None`/`NaN` score is `Option.none`. -/
def categorize_go_platform (score : Option ℚ) : ℤ × String :=
  match score with
  | none => (0, "No Data")
  | some s =>
    if s < 2.0 then (1, "Very Low")
    else if s < 3.5 then (2, "Low")
    else if s < 5.0 then (3, "Medium")
    else if s < 6.5 then (4, "High")
    else (5, "Very High")

/-- `categorize_inform`: the text-based INFORM classification.
A `None`/`NaN` score is `Option.none`. -/
def categorize_inform (score : Option ℚ) : String :=
  match score with
  | none => "No Data"
  | some s =>
    if s < 2.0 then "Very Low"
    else if s < 3.5 then "Low"
    else if s < 5.0 then "Medium"
    else if s < 6.5 then "High"
    else "Very High"

/-- Claim C1: on the documented 0–10 scale both classifiers realise the
threshold table: 0–2.0 ↦ Very Low, 2.0–3.5 ↦ Low, 3.5–5.0 ↦ Medium,
5.0–6.5 ↦ High, 6.5–10 ↦ Very High.  At each interior boundary point
(2.0, 3.5, 5.0, 6.5) the code picks the upper tier. -/
theorem threshold_table_correct (s : ℚ) :
    ((0 ≤ s ∧ s < 2) →
      categorize_go_platform (some s) = (1, "Very Low") ∧
      categorize_inform (some s) = "Very Low") ∧
    ((2 ≤ s ∧ s < 3.5) →
      categorize_go_platform (some s) = (2, "Low") ∧
      categorize_inform (some s) = "Low") ∧
    ((3.5 ≤ s ∧ s < 5) →
      categorize_go_platform (some s) = (3, "Medium") ∧
      categorize_inform (some s) = "Medium") ∧
    ((5 ≤ s ∧ s < 6.5) →
      categorize_go_platform (some s) = (4, "High") ∧
      categorize_inform (some s) = "High") ∧
    ((6.5 ≤ s ∧ s ≤ 10) →
      categorize_go_platform (some s) = (5, "Very High") ∧
      categorize_inform (some s) = "Very High") := by
  refine ⟨?_, ?_, ?_, ?_, ?_⟩ <;> rintro ⟨h1, h2⟩ <;> constructor <;>
    simp only [categorize_go_platform, categorize_inform] <;>
    split_ifs <;> first | rfl | (exfalso; norm_num at *; linarith)

/-- Witness for C1 at the concrete score 1. -/
theorem threshold_table_correct_witness :
    ((0 : ℚ) ≤ 1 ∧ (1 : ℚ) < 2) ∧
    (categorize_go_platform (some 1) = (1, "Very Low") ∧
      categorize_inform (some 1) = "Very Low") :=
  ⟨by norm_num, (threshold_table_correct 1).1 (by norm_num)⟩

/-- Claim C3: the two labeling schemes agree extensionally: for every
optional score the INFORM label equals the name component of the
GO-platform pair. -/
theorem schemes_agree (score : Option ℚ) :
    categorize_inform score = (categorize_go_platform score).2 := by
  cases score with
  | none => rfl
  | some s =>
    simp only [categorize_inform, categorize_go_platform]
    split_ifs <;> rfl

/-- Claim C9: both classifiers are total over an optional score: a
missing (`None`/`NaN`) score yields "No Data" with GO category number 0,
any negative score yields "Very Low", and any score of 6.5 or more —
also above the documented maximum of 10 — yields "Very High". -/
theorem categorize_total (s : ℚ) :
    categorize_go_platform none = (0, "No Data") ∧
    categorize_inform none = "No Data" ∧
    (s < 0 →
      categorize_go_platform (some s) = (1, "Very Low") ∧
      categorize_inform (some s) = "Very Low") ∧
    (6.5 ≤ s →
      categorize_go_platform (some s) = (5, "Very High") ∧
      categorize_inform (some s) = "Very High") := by
  refine ⟨rfl, rfl, ?_, ?_⟩ <;> intro h <;> constructor <;>
    simp only [categorize_go_platform, categorize_inform] <;>
    split_ifs <;> first | rfl | (exfalso; norm_num at *; linarith)

/-- Witness for C9 at the concrete scores -1 and 11. -/
theorem categorize_total_witness :
    ((-1 : ℚ) < 0 ∧
      categorize_go_platform (some (-1)) = (1, "Very Low") ∧
      categorize_inform (some (-1)) = "Very Low") ∧
    ((6.5 : ℚ) ≤ 11 ∧
      categorize_go_platform (some 11) = (5, "Very High") ∧
      categorize_inform (some 11) = "Very High") :=
  ⟨⟨by norm_num, (categorize_total (-1)).2.2.1 (by norm_num)⟩,
   ⟨by norm_num, (categorize_total 11).2.2.2 (by norm_num)⟩⟩

/-- The `country_details` sub-object of an API record. -/
structure CountryDetails where
  name : String
  iso3 : String
deriving DecidableEq, Inhabited

/-- One raw record of the GO Risk API, with the fields the scripts read.
A field that may be absent or `null` in the JSON is an `Option`. -/
structure RiskRecord where
  country_details : CountryDetails
  hazard_type_display : String
  january : Option ℚ
  february : Option ℚ
  march : Option ℚ
  april : Option ℚ
  may : Option ℚ
  june : Option ℚ
  july : Option ℚ
  august : Option ℚ
  september : Option ℚ
  october : Option ℚ
  november : Option ℚ
  december : Option ℚ
  yearly_sum : Option ℚ
  lcc : Option ℚ
  vulnerability : Option ℚ
  population_in_thousands : Option ℚ
deriving DecidableEq, Inhabited

/-- The URL built by `fetch_risk_scores`'s f-string. -/
def risk_score_url (region limit : ℤ) : String :=
  "https://go-risk.northeurope.cloudapp.azure.com/api/v1/risk-score/?region="
    ++ toString region ++ "&limit=" ++ toString limit

/-- An HTTP response as `fetch_risk_scores` consumes it: a status code
and the decoded JSON body (`count` and `results`). -/
structure ApiResponse where
  status_code : ℤ
  count : ℕ
  results : List RiskRecord

/-- `fetch_risk_scores`, with the effect of `requests.get` supplied as a
function from URL to response.  The first component is the trace of URLs
requested; the `Except` models the raised exception. -/
def fetch_risk_scores (get : String → ApiResponse) (region limit : ℤ) :
    List String × Except String (List RiskRecord) :=
  let url := risk_score_url region limit
  let response := get url
  if response.status_code ≠ 200 then
    ([url], Except.error ("API request failed with status code: "
      ++ toString response.status_code))
  else
    ([url], Except.ok response.results)

/-- Claim C5: `fetch_risk_scores` issues exactly one GET, to the URL with
the given region and limit (9999 by default, as the last two conjuncts
spell out for the two regions `main` uses); it fails if and only if the
status code is not 200, in which case no result is returned, and on
status 200 it returns the response's full `results` list. -/
theorem fetch_single_get (get : String → ApiResponse) (region limit : ℤ) :
    (fetch_risk_scores get region limit).1 = [risk_score_url region limit] ∧
    ((∃ e, (fetch_risk_scores get region limit).2 = Except.error e) ↔
      (get (risk_score_url region limit)).status_code ≠ 200) ∧
    ((get (risk_score_url region limit)).status_code = 200 →
      (fetch_risk_scores get region limit).2 =
        Except.ok (get (risk_score_url region limit)).results) ∧
    risk_score_url 0 9999 =
      "https://go-risk.northeurope.cloudapp.azure.com/api/v1/risk-score/?region=0&limit=9999" ∧
    risk_score_url 4 9999 =
      "https://go-risk.northeurope.cloudapp.azure.com/api/v1/risk-score/?region=4&limit=9999" := by
  unfold fetch_risk_scores
  by_cases h : (get (risk_score_url region limit)).status_code = 200
  · simp [h]
    exact ⟨rfl, rfl⟩
  · simp [h]
    exact ⟨rfl, rfl⟩

/-- A constant stub for `requests.get` used by the witness below. -/
def constGet : String → ApiResponse := fun _ => ⟨200, 0, []⟩

/-- Witness for C5 with a stubbed GET returning status 200. -/
theorem fetch_single_get_witness :
    (constGet (risk_score_url 0 9999)).status_code = 200 ∧
    (fetch_risk_scores constGet 0 9999).2 =
      Except.ok (constGet (risk_score_url 0 9999)).results :=
  ⟨rfl, (fetch_single_get constGet 0 9999).2.2.1 rfl⟩

/-- `filter_by_hazard_type`: the list comprehension keeping records whose
`hazard_type_display` is in `hazard_types` (`INCLUDED_HAZARDS` when the
argument is `None`). -/
def filter_by_hazard_type (results : List RiskRecord)
    (hazard_types : Option (List String)) : List RiskRecord :=
  let hs := hazard_types.getD INCLUDED_HAZARDS
  results.filter (fun record => hs.contains record.hazard_type_display)

/-- Claim C6: with its default argument the filter step keeps exactly the
records whose hazard type is Drought, Flood or Wildfire — every kept
record has such a hazard type, every input record with such a hazard
type is kept — and, being a sublist, the relative order is preserved. -/
theorem filter_hazard_exact (results : List RiskRecord) :
    (filter_by_hazard_type results none).Sublist results ∧
    (∀ record, record ∈ filter_by_hazard_type results none ↔
      record ∈ results ∧
        record.hazard_type_display ∈ (["Drought", "Flood", "Wildfire"] : List String)) ∧
    ∀ record, record.hazard_type_display ∈ (["Drought", "Flood", "Wildfire"] : List String) →
      (filter_by_hazard_type results none).count record = results.count record := by
  unfold filter_by_hazard_type
  refine ⟨List.filter_sublist _, fun record => ?_, fun record h => ?_⟩
  · rw [List.mem_filter]
    simp [INCLUDED_HAZARDS]
  · exact List.count_filter (by simpa [INCLUDED_HAZARDS] using h)

/-- Python's `x or 0` applied to `record.get(month, 0)`: an absent
month, a `None` month and a zero month all give 0. -/
def orZero (x : Option ℚ) : ℚ :=
  match x with
  | none => 0
  | some v => if v = 0 then 0 else v

/-- The `monthly_scores` list: the 12 monthly fields in calendar order,
each passed through `or 0`. -/
def monthlyScores (record : RiskRecord) : List ℚ :=
  [record.january, record.february, record.march, record.april, record.may,
   record.june, record.july, record.august, record.september, record.october,
   record.november, record.december].map orZero

/-- One row of the detailed output of `process_risk_data`, one field per
dictionary key. -/
structure ProcessedRecord where
  Country : String
  ISO3 : String
  Hazard_Type : String
  January : ℚ
  February : ℚ
  March : ℚ
  April : ℚ
  May : ℚ
  June : ℚ
  July : ℚ
  August : ℚ
  September : ℚ
  October : ℚ
  November : ℚ
  December : ℚ
  Yearly_Sum : ℚ
  Yearly_Average : ℚ
  Peak_Month_Score : ℚ
  GO_Category_Num : ℤ
  GO_Category : String
  INFORM_Category : String
  Peak_GO_Num : ℤ
  Peak_GO_Category : String
  Peak_INFORM_Category : String
  LCC : ℚ
  Vulnerability : ℚ
  Population_Thousands : ℚ
deriving DecidableEq, Inhabited

/-- The body of `process_risk_data`'s loop for one record. -/
def processRecord (record : RiskRecord) : ProcessedRecord :=
  let country_name := record.country_details.name
  let country_iso3 := record.country_details.iso3.toUpper
  let hazard_type := record.hazard_type_display
  let monthly_scores := monthlyScores record
  let yearly_sum := record.yearly_sum.getD monthly_scores.sum
  let yearly_avg := if yearly_sum ≠ 0 then yearly_sum / 12 else 0
  let peak_month_score := (monthly_scores.max?).getD 0
  let go := categorize_go_platform (some yearly_avg)
  let inform_category := categorize_inform (some yearly_avg)
  let peak_go := categorize_go_platform (some peak_month_score)
  let peak_inform := categorize_inform (some peak_month_score)
  { Country := country_name
    ISO3 := country_iso3
    Hazard_Type := hazard_type
    January := monthly_scores.getD 0 0
    February := monthly_scores.getD 1 0
    March := monthly_scores.getD 2 0
    April := monthly_scores.getD 3 0
    May := monthly_scores.getD 4 0
    June := monthly_scores.getD 5 0
    July := monthly_scores.getD 6 0
    August := monthly_scores.getD 7 0
    September := monthly_scores.getD 8 0
    October := monthly_scores.getD 9 0
    November := monthly_scores.getD 10 0
    December := monthly_scores.getD 11 0
    Yearly_Sum := pyRound2 yearly_sum
    Yearly_Average := pyRound2 yearly_avg
    Peak_Month_Score := pyRound2 peak_month_score
    GO_Category_Num := go.1
    GO_Category := go.2
    INFORM_Category := inform_category
    Peak_GO_Num := peak_go.1
    Peak_GO_Category := peak_go.2
    Peak_INFORM_Category := peak_inform
    LCC := record.lcc.getD 0
    Vulnerability := record.vulnerability.getD 0
    Population_Thousands := record.population_in_thousands.getD 0 }

/-- `process_risk_data`: the loop over all records. -/
def process_risk_data (results : List RiskRecord) : List ProcessedRecord :=
  results.map processRecord

/-- The yearly sum of a record: the API's `yearly_sum` field, or the sum
of the monthly scores when the field is absent. -/
def yearly_sum_of (record : RiskRecord) : ℚ :=
  record.yearly_sum.getD (monthlyScores record).sum

/-- The guarded division `yearly_sum / 12 if yearly_sum else 0` equals
the plain division. -/
theorem yearly_avg_eq_div (ys : ℚ) : (if ys ≠ 0 then ys / 12 else 0) = ys / 12 := by
  split_ifs with h
  · rfl
  · push_neg at h
    rw [h, zero_div]

/-- Claim C2: every output row of `process_risk_data` comes from the
input record at the same position, its `Yearly_Average` field is the
record's yearly sum divided by 12 and rounded to two decimals, and this
yearly average (unrounded, as the code computes it) is the score fed to
both classification functions. -/
theorem yearly_average_correct (results : List RiskRecord) (i : ℕ) (p : ProcessedRecord)
    (h : (process_risk_data results)[i]? = some p) :
    ∃ record, results[i]? = some record ∧
      p.Yearly_Average = pyRound2 (yearly_sum_of record / 12) ∧
      p.GO_Category_Num = (categorize_go_platform (some (yearly_sum_of record / 12))).1 ∧
      p.GO_Category = (categorize_go_platform (some (yearly_sum_of record / 12))).2 ∧
      p.INFORM_Category = categorize_inform (some (yearly_sum_of record / 12)) := by
  unfold process_risk_data at h
  rw [List.getElem?_map] at h
  cases hr : results[i]? with
  | none => rw [hr] at h; simp at h
  | some record =>
    rw [hr] at h
    rw [Option.map_some'] at h
    obtain rfl : processRecord record = p := Option.some_inj.mp h
    refine ⟨record, rfl, ?_, ?_, ?_, ?_⟩ <;>
      simp only [processRecord, yearly_sum_of, yearly_avg_eq_div]

/-- A concrete API record used by the witnesses. -/
def sampleRecord : RiskRecord :=
  { country_details := ⟨"Kenya", "ken"⟩
    hazard_type_display := "Drought"
    january := some 2
    february := some 2
    march := some 2
    april := some 2
    may := some 2
    june := some 2
    july := some 2
    august := some 2
    september := some 2
    october := some 2
    november := some 2
    december := some 2
    yearly_sum := some 24
    lcc := some 1
    vulnerability := some 1
    population_in_thousands := some 100 }

/-- Witness for C2 on a one-record input. -/
theorem yearly_average_correct_witness :
    (process_risk_data [sampleRecord])[0]? = some (processRecord sampleRecord) ∧
    ∃ record, ([sampleRecord])[0]? = some record ∧
      (processRecord sampleRecord).Yearly_Average = pyRound2 (yearly_sum_of record / 12) ∧
      (processRecord sampleRecord).GO_Category_Num =
        (categorize_go_platform (some (yearly_sum_of record / 12))).1 ∧
      (processRecord sampleRecord).GO_Category =
        (categorize_go_platform (some (yearly_sum_of record / 12))).2 ∧
      (processRecord sampleRecord).INFORM_Category =
        categorize_inform (some (yearly_sum_of record / 12)) :=
  ⟨rfl, yearly_average_correct [sampleRecord] 0 (processRecord sampleRecord) rfl⟩

/-- pandas `Series.unique`: the distinct values in order of first
appearance. -/
def pdUnique : List String → List String
  | [] => []
  | x :: xs => x :: (pdUnique xs).filter (fun y => y ≠ x)

/-- Python's `sorted` on strings: stable sort by the code-point
lexicographic order. -/
def pySorted (l : List String) : List String := l.mergeSort (fun a b => a ≤ b)

/-- The six per-hazard columns of a summary row. -/
structure HazardCols where
  Sum : ℚ
  Avg : ℚ
  Peak : ℚ
  GO_Num : ℤ
  GO_Cat : String
  INFORM : String
deriving DecidableEq, Inhabited

/-- The `No Data` placeholder block written when a country has no record
for a hazard. -/
def noDataCols : HazardCols := ⟨0, 0, 0, 0, "No Data", "No Data"⟩

/-- The per-hazard block of `create_summary_by_country`'s inner loop:
the first matching row's values, or the `No Data` placeholders when
`hazard_row` is empty. -/
def hazardCols (country_data : List ProcessedRecord) (hazard : String) : HazardCols :=
  match (country_data.filter (fun p => p.Hazard_Type == hazard)).head? with
  | some r => ⟨r.Yearly_Sum, r.Yearly_Average, r.Peak_Month_Score,
      r.GO_Category_Num, r.GO_Category, r.INFORM_Category⟩
  | none => noDataCols

/-- One row of the wide-format country summary. -/
structure SummaryRow where
  Country : String
  ISO3 : String
  Population_Thousands : ℚ
  LCC : ℚ
  Vulnerability : ℚ
  Drought : HazardCols
  Flood : HazardCols
  Wildfire : HazardCols
  Overall_Avg : ℚ
  Overall_GO_Num : ℤ
  Overall_GO_Cat : String
  Overall_INFORM : String
deriving DecidableEq, Inhabited

/-- The body of `create_summary_by_country`'s loop for one country. -/
def mkSummaryRow (df : List ProcessedRecord) (country : String) : SummaryRow :=
  let country_data := df.filter (fun p => p.Country == country)
  let first := country_data.headD default
  let drought := hazardCols country_data "Drought"
  let flood := hazardCols country_data "Flood"
  let wildfire := hazardCols country_data "Wildfire"
  let total_avg := (drought.Avg + flood.Avg + wildfire.Avg) / 3
  let go := categorize_go_platform (some total_avg)
  { Country := country
    ISO3 := first.ISO3
    Population_Thousands := first.Population_Thousands
    LCC := first.LCC
    Vulnerability := first.Vulnerability
    Drought := drought
    Flood := flood
    Wildfire := wildfire
    Overall_Avg := pyRound2 total_avg
    Overall_GO_Num := go.1
    Overall_GO_Cat := go.2
    Overall_INFORM := categorize_inform (some total_avg) }

/-- `create_summary_by_country`: one row per distinct country name, in
Python's sorted order. -/
def create_summary_by_country (df : List ProcessedRecord) : List SummaryRow :=
  (pySorted (pdUnique (df.map (fun p => p.Country)))).map (mkSummaryRow df)

/-- Claim C7: both pipeline steps are stateless transformations: they
are pure functions of their input list alone (the embedding leaves the
input untouched by construction), so equal inputs give equal outputs. -/
theorem pipeline_deterministic (rs1 rs2 : List RiskRecord)
    (df1 df2 : List ProcessedRecord) (h1 : rs1 = rs2) (h2 : df1 = df2) :
    process_risk_data rs1 = process_risk_data rs2 ∧
    create_summary_by_country df1 = create_summary_by_country df2 := by
  subst h1
  subst h2
  exact ⟨rfl, rfl⟩

/-- Witness for C7 on two copies of a one-record input. -/
theorem pipeline_deterministic_witness :
    [sampleRecord] = [sampleRecord] ∧
    [processRecord sampleRecord] = [processRecord sampleRecord] ∧
    (process_risk_data [sampleRecord] = process_risk_data [sampleRecord] ∧
      create_summary_by_country [processRecord sampleRecord] =
        create_summary_by_country [processRecord sampleRecord]) :=
  ⟨rfl, rfl, pipeline_deterministic [sampleRecord] [sampleRecord]
    [processRecord sampleRecord] [processRecord sampleRecord] rfl rfl⟩

/-- `pdUnique` returns a duplicate-free list. -/
theorem pdUnique_nodup (l : List String) : (pdUnique l).Nodup := by
  induction l with
  | nil => exact List.nodup_nil
  | cons x xs ih =>
    rw [pdUnique]
    refine List.nodup_cons.mpr ⟨?_, ih.filter _⟩
    intro hx
    have := (List.mem_filter.mp hx).2
    simp at this

/-- `pdUnique` keeps exactly the values of the input. -/
theorem mem_pdUnique {a : String} {l : List String} : a ∈ pdUnique l ↔ a ∈ l := by
  induction l with
  | nil => simp [pdUnique]
  | cons x xs ih =>
    simp only [pdUnique, List.mem_cons, List.mem_filter, ih]
    by_cases hax : a = x
    · simp [hax]
    · simp [hax]

/-- `find?` returns the head of the filtered list when the latter is
nonempty. -/
theorem find?_eq_headD_filter {α : Type*} (p : α → Bool) (l : List α) (d : α)
    (h : l.filter p ≠ []) : l.find? p = some ((l.filter p).headD d) := by
  induction l with
  | nil => simp at h
  | cons a l ih =>
    by_cases hp : p a
    · rw [List.find?_cons_of_pos _ hp, List.filter_cons_of_pos hp]
      rfl
    · rw [List.find?_cons_of_neg _ hp, List.filter_cons_of_neg hp]
      rw [List.filter_cons_of_neg hp] at h
      exact ih h

/-- When a country block contains no row for a hazard, its summary
columns are the `No Data` placeholders. -/
theorem hazardCols_eq_noData (country_data : List ProcessedRecord) (hazard : String)
    (h : ∀ p ∈ country_data, p.Hazard_Type ≠ hazard) :
    hazardCols country_data hazard = noDataCols := by
  unfold hazardCols
  have hnil : country_data.filter (fun p => p.Hazard_Type == hazard) = [] := by
    refine List.filter_eq_nil_iff.mpr ?_
    intro a ha
    simpa using h a ha
  rw [hnil]
  rfl

/-- The country names of the summary are the sorted distinct country
names of the input. -/
theorem map_country_create_summary (df : List ProcessedRecord) :
    (create_summary_by_country df).map (fun r => r.Country) =
      pySorted (pdUnique (df.map (fun p => p.Country))) := by
  unfold create_summary_by_country
  rw [List.map_map]
  have hcomp : ((fun r : SummaryRow => r.Country) ∘ mkSummaryRow df) = id := by
    funext c
    rfl
  rw [hcomp, List.map_id]

/-- Claim C8: in the country summary, a country with no record for a
hazard gets the `No Data` placeholder block (zero Sum/Avg/Peak, GO
number 0, "No Data" categories) for that hazard, and `Overall_Avg`
always divides the sum of the three per-hazard averages by 3, so a
missing hazard contributes a 0 term without shrinking the denominator. -/
theorem missing_hazard_no_data (df : List ProcessedRecord) (row : SummaryRow)
    (h : row ∈ create_summary_by_country df) :
    ((∀ p ∈ df, ¬(p.Country = row.Country ∧ p.Hazard_Type = "Drought")) →
      row.Drought = noDataCols) ∧
    ((∀ p ∈ df, ¬(p.Country = row.Country ∧ p.Hazard_Type = "Flood")) →
      row.Flood = noDataCols) ∧
    ((∀ p ∈ df, ¬(p.Country = row.Country ∧ p.Hazard_Type = "Wildfire")) →
      row.Wildfire = noDataCols) ∧
    row.Overall_Avg =
      pyRound2 ((row.Drought.Avg + row.Flood.Avg + row.Wildfire.Avg) / 3) := by
  unfold create_summary_by_country at h
  obtain ⟨c, _, rfl⟩ := List.mem_map.mp h
  refine ⟨?_, ?_, ?_, rfl⟩ <;>
    · intro hno
      show hazardCols (df.filter (fun p => p.Country == c)) _ = noDataCols
      refine hazardCols_eq_noData _ _ ?_
      intro p hp hhaz
      have hpdf := (List.mem_filter.mp hp).1
      have hpc : p.Country = c := by
        have := (List.mem_filter.mp hp).2
        simpa using this
      exact hno p hpdf ⟨hpc, hhaz⟩

/-- The one-row detailed table used by the summary witnesses. -/
def sampleDF : List ProcessedRecord := [processRecord sampleRecord]

/-- The summary row the witnesses examine. -/
def kenyaRow : SummaryRow := mkSummaryRow sampleDF "Kenya"

/-- The summary of a one-row table is the one row of its country. -/
theorem create_summary_singleton (p : ProcessedRecord) :
    create_summary_by_country [p] = [mkSummaryRow [p] p.Country] := by
  simp [create_summary_by_country, pySorted, pdUnique, List.mergeSort_singleton]

/-- The witnesses' sample row is a member of the sample summary. -/
theorem kenyaRow_mem : kenyaRow ∈ create_summary_by_country sampleDF := by
  rw [show create_summary_by_country sampleDF = [kenyaRow] from
    create_summary_singleton (processRecord sampleRecord)]
  exact List.mem_singleton.mpr rfl

/-- Witness for C8: the sample table has a Drought record for Kenya but
no Flood record, so the Flood block is `No Data`. -/
theorem missing_hazard_no_data_witness :
    kenyaRow ∈ create_summary_by_country sampleDF ∧
    kenyaRow.Flood = noDataCols ∧
    kenyaRow.Overall_Avg =
      pyRound2 ((kenyaRow.Drought.Avg + kenyaRow.Flood.Avg + kenyaRow.Wildfire.Avg) / 3) :=
  ⟨kenyaRow_mem, (missing_hazard_no_data sampleDF kenyaRow kenyaRow_mem).2.1 (by decide),
    (missing_hazard_no_data sampleDF kenyaRow kenyaRow_mem).2.2.2⟩

/-- Claim C10: the summary has exactly one row per distinct input
country name (its country column is duplicate-free and has the same
members as the input's country column), the rows are in ascending
alphabetical order, and each row's ISO3, population, LCC and
vulnerability come from the first input record of that country. -/
theorem summary_unique_sorted_first (df : List ProcessedRecord) :
    ((create_summary_by_country df).map (fun r => r.Country)).Nodup ∧
    List.Sorted (fun a b : String => a ≤ b)
      ((create_summary_by_country df).map (fun r => r.Country)) ∧
    (∀ c, c ∈ (create_summary_by_country df).map (fun r => r.Country) ↔
      c ∈ df.map (fun p => p.Country)) ∧
    ∀ row ∈ create_summary_by_country df,
      ∃ p, df.find? (fun q => q.Country == row.Country) = some p ∧
        row.ISO3 = p.ISO3 ∧ row.Population_Thousands = p.Population_Thousands ∧
        row.LCC = p.LCC ∧ row.Vulnerability = p.Vulnerability := by
  have hmap := map_country_create_summary df
  have hperm : (pySorted (pdUnique (df.map (fun p => p.Country)))).Perm
      (pdUnique (df.map (fun p => p.Country))) := List.mergeSort_perm _ _
  refine ⟨?_, ?_, ?_, ?_⟩
  · rw [hmap]
    exact hperm.nodup_iff.mpr (pdUnique_nodup _)
  · rw [hmap]
    have hs : List.Pairwise (fun a b : String => decide (a ≤ b) = true)
        ((pdUnique (df.map (fun p => p.Country))).mergeSort
          (fun a b : String => decide (a ≤ b))) := by
      apply List.sorted_mergeSort
      · intro a b c hab hbc
        exact decide_eq_true (le_trans (of_decide_eq_true hab) (of_decide_eq_true hbc))
      · intro a b
        rcases le_total a b with h | h
        · simp only [decide_eq_true h, Bool.true_or]
        · simp only [decide_eq_true h, Bool.or_true]
    exact hs.imp fun hab => of_decide_eq_true hab
  · intro c
    rw [hmap, hperm.mem_iff, mem_pdUnique]
  · intro row hrow
    unfold create_summary_by_country at hrow
    obtain ⟨c, hc, rfl⟩ := List.mem_map.mp hrow
    have hcmem : c ∈ df.map (fun p => p.Country) :=
      mem_pdUnique.mp (hperm.mem_iff.mp hc)
    obtain ⟨q, hq, hqc⟩ := List.mem_map.mp hcmem
    have hne : df.filter (fun p => p.Country == c) ≠ [] := by
      intro hnil
      have : q ∈ df.filter (fun p => p.Country == c) :=
        List.mem_filter.mpr ⟨hq, by simp [hqc]⟩
      rw [hnil] at this
      exact List.not_mem_nil q this
    show ∃ p, df.find? (fun q => q.Country == c) = some p ∧
      (mkSummaryRow df c).ISO3 = p.ISO3 ∧
      (mkSummaryRow df c).Population_Thousands = p.Population_Thousands ∧
      (mkSummaryRow df c).LCC = p.LCC ∧
      (mkSummaryRow df c).Vulnerability = p.Vulnerability
    have hfind := find?_eq_headD_filter (fun q => q.Country == c) df default hne
    exact ⟨_, hfind, rfl, rfl, rfl, rfl⟩

/-- Witness for C10 on the one-row sample table. -/
theorem summary_unique_sorted_first_witness :
    kenyaRow ∈ create_summary_by_country sampleDF ∧
    ∃ p, sampleDF.find? (fun q => q.Country == kenyaRow.Country) = some p ∧
      kenyaRow.ISO3 = p.ISO3 ∧ kenyaRow.Population_Thousands = p.Population_Thousands ∧
      kenyaRow.LCC = p.LCC ∧ kenyaRow.Vulnerability = p.Vulnerability :=
  ⟨kenyaRow_mem, (summary_unique_sorted_first sampleDF).2.2.2 kenyaRow kenyaRow_mem⟩

/-- One row of the `Country_Summary` sheet as `africa_risk_choropleth.py`
reads it back: the columns `load_and_normalize_data` touches.  A missing
(`NaN`) ISO3 cell is `Option.none`; the scores are reals because a square
root is taken. -/
structure CountrySummaryRow where
  Country : String
  ISO3 : Option String
  Population_Thousands : ℝ
  Drought_Avg : ℝ
  Flood_Avg : ℝ
  Overall_Avg : ℝ

/-- A row of `viz_df` after the normalized columns are added. -/
structure VizRow where
  Country : String
  ISO3 : Option String
  Population_Thousands : ℝ
  Drought_Avg : ℝ
  Flood_Avg : ℝ
  Overall_Avg : ℝ
  Pop_Sqrt : ℝ
  Drought_Norm : ℝ
  Flood_Norm : ℝ
  Overall_Norm : ℝ

/-- The column assignments of `load_and_normalize_data` on one row:
`Pop_Sqrt = sqrt(Population_Thousands)` and each normalized score is the
average divided by `Pop_Sqrt`, rounded to four decimals. -/
noncomputable def addNormColumns (r : CountrySummaryRow) : VizRow :=
  let pop_sqrt := Real.sqrt r.Population_Thousands
  { Country := r.Country
    ISO3 := r.ISO3
    Population_Thousands := r.Population_Thousands
    Drought_Avg := r.Drought_Avg
    Flood_Avg := r.Flood_Avg
    Overall_Avg := r.Overall_Avg
    Pop_Sqrt := pop_sqrt
    Drought_Norm := npRound4 (r.Drought_Avg / pop_sqrt)
    Flood_Norm := npRound4 (r.Flood_Avg / pop_sqrt)
    Overall_Norm := npRound4 (r.Overall_Avg / pop_sqrt) }

/-- The row-keeping test `viz_df['ISO3'].notna() & (viz_df['ISO3'] != '')`. -/
def hasISO3 (iso3 : Option String) : Bool :=
  match iso3 with
  | some s => s ≠ ""
  | none => false

/-- `load_and_normalize_data` (reading the sheet is outside the model, so
the summary rows are the argument): add the normalized columns to every
row, then drop the rows without a usable ISO3 code. -/
noncomputable def load_and_normalize_data (summary_df : List CountrySummaryRow) :
    List VizRow :=
  (summary_df.map addNormColumns).filter (fun r => hasISO3 r.ISO3)

/-- Claim C4: the output of `load_and_normalize_data` consists of exactly
the input rows whose ISO3 is present and non-empty (the second conjunct
spells out what the keeping test rejects), each carrying normalized
scores `round(avg / sqrt(population), 4)` for Drought, Flood and
Overall. -/
theorem normalization_formula (rows : List CountrySummaryRow) :
    load_and_normalize_data rows =
      (rows.filter (fun r => hasISO3 r.ISO3)).map (fun r =>
        { Country := r.Country
          ISO3 := r.ISO3
          Population_Thousands := r.Population_Thousands
          Drought_Avg := r.Drought_Avg
          Flood_Avg := r.Flood_Avg
          Overall_Avg := r.Overall_Avg
          Pop_Sqrt := Real.sqrt r.Population_Thousands
          Drought_Norm := npRound4 (r.Drought_Avg / Real.sqrt r.Population_Thousands)
          Flood_Norm := npRound4 (r.Flood_Avg / Real.sqrt r.Population_Thousands)
          Overall_Norm := npRound4 (r.Overall_Avg / Real.sqrt r.Population_Thousands) }) ∧
    ∀ o, hasISO3 o = false ↔ (o = none ∨ o = some "") := by
  constructor
  · unfold load_and_normalize_data
    rw [List.filter_map]
    rfl
  · intro o
    cases o with
    | none => simp [hasISO3]
    | some s => simp [hasISO3]

end RiskAnalysis
